import Mathlib

/-!
Shallow embedding of the QuickGame C++ wrapper header (include/Tilemap.h,
namespace `QuickGame`). The wrapped engine (the C functions `QuickGame_*`)
is an external collaborator whose implementation is out of scope; each
engine call's outcome is therefore a parameter of the embedded wrapper
function (an oracle), and every wrapper records the engine calls it makes
in a trace. A wrapper invocation yields:
  - the object state after the call (C++ member fields, which persist even
    when the body throws, matching C++ semantics at the throw point),
  - an `Except String` result mirroring `throw std::runtime_error(msg)`,
  - the ordered list of engine entry points invoked.

Scalar `f32` fields are only ever stored and copied by this layer, never
computed with, so they are embedded as `Int`. Engine handles are
`Option h`: `none` is the C `NULL`. The engine's destroy functions take
the handle's address and null it out, the convention documented in the
repository's own C header (`QuickGame_Tilemap_Destroy`: the handle
"also gets set to null").
-/

namespace QG

/-- `f32` scalars: stored and copied only, so an abstract integer value. -/
abbrev f32 := Int

/-- `QGVector2` from the engine header, as used by the wrapper. -/
structure QGVector2 where
  x : f32
  y : f32
deriving DecidableEq

/-- `QGTransform2D`: the wrapper writes `{position, 0, size}` into it. -/
structure QGTransform2D where
  position : QGVector2
  rotation : f32
  scale : QGVector2
deriving DecidableEq

/-- `QGColor`: the wrapper only touches its `u32` field `color`. -/
structure QGColor where
  color : Nat
deriving DecidableEq

/-- `QGTexInfo` is passed through opaquely by the wrapper. -/
abbrev QGTexInfo := Nat

/-- Payload of a non-null `QGTexture_t` handle: opaque to the wrapper. -/
abbrev QGTexture := Nat

/-- Payload of a non-null `QGVMesh_t` handle: the fields the wrapper
dereferences (`ir->type`, `ir->data`, `ir->indices`). `data` is a byte
buffer; `indices` is a buffer of 16-bit elements. -/
structure QGVMeshData where
  type : Nat
  data : List Nat
  indices : List Nat
deriving DecidableEq

/-- Payload of a non-null `QGSprite_t` handle: the fields the wrapper
writes (`ir->transform`, `ir->layer`), plus the engine sprite's own color
field, which the wrapper never writes. -/
structure QGSpriteData where
  transform : QGTransform2D
  layer : Int
  color : QGColor
deriving DecidableEq

/-- `QG_VERTEX_TYPE_TEXTURED` from the engine header; only equality with a
mesh's `type` field matters to the wrapper. -/
def QG_VERTEX_TYPE_TEXTURED : Nat := 1

/-- One engine entry-point invocation, with the arguments the wrapper
forwards (handles omitted where no claim depends on them). -/
inductive EngineCall where
  | qgInit
  | graphicsInit
  | allocate (n : Nat)
  | createMesh (type vcount icount : Nat)
  | destroyMesh
  | drawMesh
  | textureLoad (filename : String) (flip vram : Bool)
  | textureLoadAlt (texInfo : QGTexInfo)
  | textureBind
  | textureUnbind
  | textureDestroy
  | spriteCreate (position size : QGVector2)
  | spriteCreateContained (x y w h : f32) (texInfo : QGTexInfo)
  | spriteDraw
  | spriteDestroy
  | spriteIntersects
  | spriteIntersectDir
  | buttonPressed (buttons : Nat)
  | buttonHeld (buttons : Nat)
  | buttonReleased (buttons : Nat)
deriving DecidableEq

/-- Outcome of running one wrapper operation: the object state afterwards,
the normal-return-or-thrown result, and the engine calls made, in order. -/
structure CallResult (σ : Type) (α : Type) where
  state : σ
  result : Except String α
  calls : List EngineCall

/-- C `memcpy(dst, src, n)` on byte buffers: the first `n` bytes of `src`
replace the first `n` bytes of `dst`. -/
def memcpy (dst src : List Nat) (n : Nat) : List Nat :=
  src.take n ++ dst.drop n

end QG

namespace QuickGame

open QG

/-- `QuickGame::init()`: throws a runtime error when `QuickGame_Init()` is
negative. `r` is the engine call's return value. -/
def init (r : Int) : CallResult Unit Unit :=
  if r < 0 then
    ⟨(), .error "Failed to initialize!", [.qgInit]⟩
  else
    ⟨(), .ok (), [.qgInit]⟩

/-- `QuickGame::allocate(n)`: returns `QuickGame_Allocate(n)` directly.
`engineAlloc` gives the engine's result (`none` is `NULL`). -/
def allocate (engineAlloc : Nat → Option Nat) (n : Nat) :
    CallResult Unit (Option Nat) :=
  ⟨(), .ok (engineAlloc n), [.allocate n]⟩

namespace Graphics

/-- `QuickGame::Graphics::init()`: calls `QuickGame_Graphics_Init()` and
discards whatever it reports; `status` is the engine-side outcome. -/
def init (_status : Int) : CallResult Unit Unit :=
  ⟨(), .ok (), [.graphicsInit]⟩

/-- The `Mesh` wrapper object: one handle field `ir`. -/
structure Mesh where
  ir : Option QGVMeshData
deriving DecidableEq

namespace Mesh

/-- `Mesh::Mesh()`: default constructor, sets `ir` to `NULL`. -/
def ctor0 : CallResult Mesh Unit :=
  ⟨⟨none⟩, .ok (), []⟩

/-- `Mesh::delete_data()`: `QuickGame_Graphics_Destroy_Mesh(&ir)`, which
destroys the mesh and nulls the handle. -/
def delete_data (_m : Mesh) : CallResult Mesh Unit :=
  ⟨⟨none⟩, .ok (), [.destroyMesh]⟩

/-- `Mesh::create_mesh(type, vcount, icount)`: when `ir` is non-null it
runs `delete_data()`, otherwise it assigns
`ir = QuickGame_Graphics_Create_Mesh(type, vcount, icount)`; afterwards it
throws when `ir` is null. `engineCreate` gives the engine call's result. -/
def create_mesh (engineCreate : Nat → Nat → Nat → Option QGVMeshData)
    (m : Mesh) (type vcount icount : Nat) : CallResult Mesh Unit :=
  let step : CallResult Mesh Unit :=
    match m.ir with
    | some _ => delete_data m
    | none => ⟨⟨engineCreate type vcount icount⟩, .ok (),
               [.createMesh type vcount icount]⟩
  match step.state.ir with
  | none => ⟨step.state, .error "Mesh creation failed!", step.calls⟩
  | some _ => ⟨step.state, .ok (), step.calls⟩

/-- `Mesh::Mesh(type, vcount, icount)`: initializes `ir` to `NULL`, then
calls `create_mesh(type, vcount, icount)`. -/
def ctor3 (engineCreate : Nat → Nat → Nat → Option QGVMeshData)
    (type vcount icount : Nat) : CallResult Mesh Unit :=
  create_mesh engineCreate ⟨none⟩ type vcount icount

/-- `Mesh::add_data(verts, vcount, indices, icount)`: throws when `verts`
or `indices` is null; otherwise picks the element size from `ir->type` and
`memcpy`s `vcount * size` bytes into `ir->data` and `icount` 16-bit
elements into `ir->indices`. Dereferencing `ir` when it is null is
undefined behaviour, embedded as the outer `none`. `sizeofTextured` and
`sizeofColored` are `sizeof(QGTexturedVertex)` / `sizeof(QGColoredVertex)`
from the engine header. -/
def add_data (sizeofTextured sizeofColored : Nat) (m : Mesh)
    (verts : Option (List Nat)) (vcount : Nat)
    (indices : Option (List Nat)) (icount : Nat) :
    Option (CallResult Mesh Unit) :=
  match verts, indices with
  | none, _ => some ⟨m, .error "Mesh data null!", []⟩
  | some _, none => some ⟨m, .error "Mesh data null!", []⟩
  | some vs, some idx =>
    match m.ir with
    | none => none
    | some h =>
      let size := if h.type = QG_VERTEX_TYPE_TEXTURED then sizeofTextured
                  else sizeofColored
      some ⟨⟨some { h with data := memcpy h.data vs (vcount * size),
                           indices := idx.take icount ++
                                      h.indices.drop icount }⟩,
            .ok (), []⟩

/-- `Mesh::draw()`: `QuickGame_Graphics_Draw_Mesh(ir)`. -/
def draw (m : Mesh) : CallResult Mesh Unit :=
  ⟨m, .ok (), [.drawMesh]⟩

/-- `Mesh::~Mesh()`: calls `delete_data()`. -/
def dtor (m : Mesh) : CallResult Mesh Unit :=
  delete_data m

end Mesh

/-- The `Texture` wrapper object: one handle field `ir`. -/
structure Texture where
  ir : Option QGTexture
deriving DecidableEq

namespace Texture

/-- `Texture::Texture(filename, flip, vram)`: assigns
`ir = QuickGame_Texture_Load(filename, flip, vram)` and throws when the
result is null. `engineLoad` gives the engine call's result. -/
def ctorLoad (engineLoad : String → Bool → Bool → Option QGTexture)
    (filename : String) (flip vram : Bool) : CallResult Texture Unit :=
  let ir := engineLoad filename flip vram
  match ir with
  | none => ⟨⟨ir⟩, .error "Could not load texture!",
             [.textureLoad filename flip vram]⟩
  | some _ => ⟨⟨ir⟩, .ok (), [.textureLoad filename flip vram]⟩

/-- `Texture::Texture(tex_info)`: assigns
`ir = QuickGame_Texture_Load_Alt(tex_info)` and throws when the result is
null. -/
def ctorLoadAlt (engineLoadAlt : QGTexInfo → Option QGTexture)
    (texInfo : QGTexInfo) : CallResult Texture Unit :=
  let ir := engineLoadAlt texInfo
  match ir with
  | none => ⟨⟨ir⟩, .error "Could not load texture!",
             [.textureLoadAlt texInfo]⟩
  | some _ => ⟨⟨ir⟩, .ok (), [.textureLoadAlt texInfo]⟩

/-- `Texture::bind()`: `QuickGame_Texture_Bind(ir)`. -/
def bind (t : Texture) : CallResult Texture Unit :=
  ⟨t, .ok (), [.textureBind]⟩

/-- `Texture::unbind()`: `QuickGame_Texture_Unbind()`. -/
def unbind (t : Texture) : CallResult Texture Unit :=
  ⟨t, .ok (), [.textureUnbind]⟩

/-- `Texture::~Texture()`: `QuickGame_Texture_Destroy(&ir)`, which
destroys the texture and nulls the handle. -/
def dtor (_t : Texture) : CallResult Texture Unit :=
  ⟨⟨none⟩, .ok (), [.textureDestroy]⟩

end Texture

/-- The `Sprite` wrapper object: public members `transform`, `layer`,
`color`, and one private handle field `ir`. -/
structure Sprite where
  transform : QGTransform2D
  layer : Int
  color : QGColor
  ir : Option QGSpriteData
deriving DecidableEq

namespace Sprite

/-- `Sprite::Sprite(position, size, texture)`: sets
`transform = {position, 0, size}`, `layer = 0`, `color.color = 0xFFFFFFFF`,
then assigns `ir = QuickGame_Sprite_Create(position, size, texture->ir)`
and throws when the result is null. -/
def ctorTex
    (engineCreate : QGVector2 → QGVector2 → Option QGTexture →
      Option QGSpriteData)
    (position size : QGVector2) (texture : Texture) :
    CallResult Sprite Unit :=
  let ir := engineCreate position size texture.ir
  let s : Sprite := { transform := ⟨position, 0, size⟩, layer := 0,
                      color := ⟨0xFFFFFFFF⟩, ir := ir }
  match ir with
  | none => ⟨s, .error "Could not make sprite!", [.spriteCreate position size]⟩
  | some _ => ⟨s, .ok (), [.spriteCreate position size]⟩

/-- `Sprite::Sprite(position, size, tex_info)`: sets
`transform = {position, 0, size}`, `layer = 0`, `color.color = 0xFFFFFFFF`,
then assigns `ir = QuickGame_Sprite_Create_Contained(position.x,
position.y, size.x, size.y, tex_info)` and throws when the result is
null. -/
def ctorContained
    (engineCreateContained : f32 → f32 → f32 → f32 → QGTexInfo →
      Option QGSpriteData)
    (position size : QGVector2) (texInfo : QGTexInfo) :
    CallResult Sprite Unit :=
  let ir := engineCreateContained position.x position.y size.x size.y texInfo
  let s : Sprite := { transform := ⟨position, 0, size⟩, layer := 0,
                      color := ⟨0xFFFFFFFF⟩, ir := ir }
  match ir with
  | none => ⟨s, .error "Could not make sprite!",
             [.spriteCreateContained position.x position.y size.x size.y
              texInfo]⟩
  | some _ => ⟨s, .ok (), [.spriteCreateContained position.x position.y
               size.x size.y texInfo]⟩

/-- `Sprite::~Sprite()`: `QuickGame_Sprite_Destroy(&ir)`, which destroys
the sprite and nulls the handle. -/
def dtor (s : Sprite) : CallResult Sprite Unit :=
  ⟨{ s with ir := none }, .ok (), [.spriteDestroy]⟩

/-- `Sprite::draw()`: returns immediately when `ir` is null; otherwise
writes `ir->transform = transform` and `ir->layer = layer` and calls
`QuickGame_Sprite_Draw(ir)`. -/
def draw (s : Sprite) : CallResult Sprite Unit :=
  match s.ir with
  | none => ⟨s, .ok (), []⟩
  | some h => ⟨{ s with ir := some { h with transform := s.transform,
                                            layer := s.layer } },
               .ok (), [.spriteDraw]⟩

/-- `Sprite::intersects(other)`: returns
`QuickGame_Sprite_Intersects(ir, other.ir)`. -/
def intersects (engineHit : Option QGSpriteData → Option QGSpriteData → Bool)
    (s other : Sprite) : CallResult Sprite Bool :=
  ⟨s, .ok (engineHit s.ir other.ir), [.spriteIntersects]⟩

/-- `Sprite::intersection(other)`: returns
`QuickGame_Sprite_Intersect_Direction(ir, other.ir)`. -/
def intersection
    (engineDir : Option QGSpriteData → Option QGSpriteData → Int)
    (s other : Sprite) : CallResult Sprite Int :=
  ⟨s, .ok (engineDir s.ir other.ir), [.spriteIntersectDir]⟩

end Sprite

end Graphics

namespace Input

open QG

/-- `Input::button_pressed(buttons)`: returns
`QuickGame_Button_Pressed(buttons)`. `engine` gives the engine call's
result as a function of the forwarded mask. -/
def button_pressed (engine : Nat → Bool) (buttons : Nat) :
    CallResult Unit Bool :=
  ⟨(), .ok (engine buttons), [.buttonPressed buttons]⟩

/-- `Input::button_held(buttons)`: returns
`QuickGame_Button_Held(buttons)`. -/
def button_held (engine : Nat → Bool) (buttons : Nat) :
    CallResult Unit Bool :=
  ⟨(), .ok (engine buttons), [.buttonHeld buttons]⟩

/-- `Input::button_released(buttons)`: returns
`QuickGame_Button_Released(buttons)`. -/
def button_released (engine : Nat → Bool) (buttons : Nat) :
    CallResult Unit Bool :=
  ⟨(), .ok (engine buttons), [.buttonReleased buttons]⟩

end Input

end QuickGame

section Claims

open QG QuickGame

/-- Claim C3: `QuickGame::init()` throws a runtime error exactly when
`QuickGame_Init()` returns a negative value; on a non-negative value it
returns normally, its only engine interaction being the single
`QuickGame_Init` call. -/
theorem claim_C3_init_throws_iff_negative (r : Int) :
    ((QuickGame.init r).result = Except.ok () ↔ 0 ≤ r) ∧
    ((QuickGame.init r).result = Except.error "Failed to initialize!" ↔ r < 0) ∧
    (QuickGame.init r).calls = [EngineCall.qgInit] := by
  by_cases h : r < 0 <;> simp [QuickGame.init, h] <;> try omega

/-- Claim C1 fails on the code: with an engine whose graphics
initialization reports failure (status `-1`), `Graphics::init()` still
returns normally without throwing; and with an engine whose allocator
returns null, `allocate(16)` makes its engine call and returns the null
result to the caller instead of throwing. -/
theorem claim_C1_counterexample :
    (Graphics.init (-1)).result = Except.ok () ∧
    (QuickGame.allocate (fun _ => none) 16).result = Except.ok none ∧
    (QuickGame.allocate (fun _ => none) 16).calls = [EngineCall.allocate 16] :=
  ⟨rfl, rfl, rfl⟩

/-- Claim C1 amended: the wrappers that test their engine call's result do
convert failure into a thrown runtime error, but
`QuickGame::Graphics::init()` invokes `QuickGame_Graphics_Init()` without
inspecting its outcome and always returns normally, and
`QuickGame::allocate(n)` always returns the result of
`QuickGame_Allocate(n)` — null included — to the caller without
throwing. -/
theorem claim_C1_amended (status : Int) (alloc : Nat → Option Nat) (n : Nat) :
    (Graphics.init status).result = Except.ok () ∧
    (Graphics.init status).calls = [EngineCall.graphicsInit] ∧
    (QuickGame.allocate alloc n).result = Except.ok (alloc n) ∧
    (QuickGame.allocate alloc n).calls = [EngineCall.allocate n] :=
  ⟨rfl, rfl, rfl, rfl⟩

/-- Claim C2 fails on the code: `Mesh`'s default constructor returns
normally, yet the stored handle is null immediately afterwards. -/
theorem claim_C2_counterexample :
    Graphics.Mesh.ctor0.result = Except.ok () ∧
    Graphics.Mesh.ctor0.state.ir = none :=
  ⟨rfl, rfl⟩

/-- Claim C2 amended: for every handle-creating constructor of `Mesh`,
`Texture` and `Sprite`, the stored handle is non-null exactly when the
constructor returns normally (`Mesh`'s default constructor, by contrast,
returns normally with a null handle); destruction leaves the handle null;
every other method call preserves the handle's non-nullness; and
`Mesh::delete_data` nulls the handle while `Mesh::create_mesh` again ends
with a non-null handle exactly when it returns normally. -/
theorem claim_C2_amended
    (engCreate : Nat → Nat → Nat → Option QGVMeshData) (t vc ic : Nat)
    (load : String → Bool → Bool → Option QGTexture)
    (fn : String) (fl vr : Bool)
    (loadAlt : QGTexInfo → Option QGTexture) (ti : QGTexInfo)
    (screate : QGVector2 → QGVector2 → Option QGTexture →
      Option QGSpriteData)
    (screateC : f32 → f32 → f32 → f32 → QGTexInfo → Option QGSpriteData)
    (pos sz : QGVector2) (tex : Graphics.Texture)
    (st sc vc2 ic2 : Nat) (verts idx : Option (List Nat))
    (hit : Option QGSpriteData → Option QGSpriteData → Bool)
    (dir : Option QGSpriteData → Option QGSpriteData → Int)
    (m : Graphics.Mesh) (tobj : Graphics.Texture) (s so : Graphics.Sprite) :
    ((Graphics.Mesh.ctor3 engCreate t vc ic).state.ir.isSome ↔
      (Graphics.Mesh.ctor3 engCreate t vc ic).result = Except.ok ()) ∧
    ((Graphics.Texture.ctorLoad load fn fl vr).state.ir.isSome ↔
      (Graphics.Texture.ctorLoad load fn fl vr).result = Except.ok ()) ∧
    ((Graphics.Texture.ctorLoadAlt loadAlt ti).state.ir.isSome ↔
      (Graphics.Texture.ctorLoadAlt loadAlt ti).result = Except.ok ()) ∧
    ((Graphics.Sprite.ctorTex screate pos sz tex).state.ir.isSome ↔
      (Graphics.Sprite.ctorTex screate pos sz tex).result = Except.ok ()) ∧
    ((Graphics.Sprite.ctorContained screateC pos sz ti).state.ir.isSome ↔
      (Graphics.Sprite.ctorContained screateC pos sz ti).result =
        Except.ok ()) ∧
    (Graphics.Mesh.ctor0.result = Except.ok () ∧
      Graphics.Mesh.ctor0.state.ir = none) ∧
    ((Graphics.Mesh.dtor m).state.ir = none) ∧
    ((Graphics.Texture.dtor tobj).state.ir = none) ∧
    ((Graphics.Sprite.dtor s).state.ir = none) ∧
    ((Graphics.Mesh.draw m).state.ir = m.ir) ∧
    ((Graphics.Mesh.add_data st sc m verts vc2 idx ic2).elim True
      (fun r => r.state.ir.isSome = m.ir.isSome)) ∧
    ((Graphics.Texture.bind tobj).state.ir = tobj.ir) ∧
    ((Graphics.Texture.unbind tobj).state.ir = tobj.ir) ∧
    ((Graphics.Sprite.draw s).state.ir.isSome = s.ir.isSome) ∧
    ((Graphics.Sprite.intersects hit s so).state.ir = s.ir) ∧
    ((Graphics.Sprite.intersection dir s so).state.ir = s.ir) ∧
    ((Graphics.Mesh.delete_data m).state.ir = none) ∧
    ((Graphics.Mesh.create_mesh engCreate m t vc ic).state.ir.isSome ↔
      (Graphics.Mesh.create_mesh engCreate m t vc ic).result =
        Except.ok ()) := by
  refine ⟨?_, ?_, ?_, ?_, ?_, ⟨rfl, rfl⟩, rfl, rfl, rfl, rfl, ?_, rfl, rfl,
    ?_, rfl, rfl, rfl, ?_⟩
  · cases h : engCreate t vc ic <;>
      simp [Graphics.Mesh.ctor3, Graphics.Mesh.create_mesh, h]
  · cases h : load fn fl vr <;> simp [Graphics.Texture.ctorLoad, h]
  · cases h : loadAlt ti <;> simp [Graphics.Texture.ctorLoadAlt, h]
  · cases h : screate pos sz tex.ir <;> simp [Graphics.Sprite.ctorTex, h]
  · cases h : screateC pos.x pos.y sz.x sz.y ti <;>
      simp [Graphics.Sprite.ctorContained, h]
  · cases verts with
    | none => simp [Graphics.Mesh.add_data]
    | some vs =>
      cases idx with
      | none => simp [Graphics.Mesh.add_data]
      | some is =>
        cases h : m.ir <;> simp [Graphics.Mesh.add_data, h]
  · cases h : s.ir <;> simp [Graphics.Sprite.draw, h]
  · cases hm : m.ir with
    | none =>
      cases h : engCreate t vc ic <;>
        simp [Graphics.Mesh.create_mesh, hm, h]
    | some d =>
      simp [Graphics.Mesh.create_mesh, Graphics.Mesh.delete_data, hm]

/-- Claim C4 fails on the code: calling `Mesh::create_mesh` while a mesh
handle already exists makes one `QuickGame_Graphics_Destroy_Mesh` call and
no `QuickGame_Graphics_Create_Mesh` call at all (even though the engine
would have produced a mesh), then throws; and `Mesh::add_data` with
non-null data makes zero engine calls rather than forwarding to an engine
entry point. -/
theorem claim_C4_counterexample :
    (Graphics.Mesh.create_mesh (fun t _ _ => some ⟨t, [], []⟩)
        ⟨some ⟨1, [], []⟩⟩ 1 4 6).calls = [EngineCall.destroyMesh] ∧
    (Graphics.Mesh.create_mesh (fun t _ _ => some ⟨t, [], []⟩)
        ⟨some ⟨1, [], []⟩⟩ 1 4 6).result =
      Except.error "Mesh creation failed!" ∧
    Graphics.Mesh.add_data 24 16 ⟨some ⟨1, [], []⟩⟩ (some [0]) 0
        (some [0]) 0 =
      some ⟨⟨some ⟨1, [], []⟩⟩, Except.ok (), []⟩ :=
  ⟨rfl, rfl, rfl⟩

/-- Claim C4 amended: a call to `Mesh::create_mesh` when no mesh handle
exists (in particular from the three-argument constructor) makes exactly
one `QuickGame_Graphics_Create_Mesh` call; when a handle already exists it
instead makes exactly one `QuickGame_Graphics_Destroy_Mesh` call, no
create call, and throws; and `Mesh::add_data` makes no engine call at all,
copying the data itself. -/
theorem claim_C4_amended
    (engCreate : Nat → Nat → Nat → Option QGVMeshData)
    (t vc ic : Nat) (h : QGVMeshData)
    (st sc vc2 ic2 : Nat) (m : Graphics.Mesh)
    (verts idx : Option (List Nat)) :
    (Graphics.Mesh.create_mesh engCreate ⟨none⟩ t vc ic).calls =
      [EngineCall.createMesh t vc ic] ∧
    (Graphics.Mesh.ctor3 engCreate t vc ic).calls =
      [EngineCall.createMesh t vc ic] ∧
    (Graphics.Mesh.create_mesh engCreate ⟨some h⟩ t vc ic).calls =
      [EngineCall.destroyMesh] ∧
    (Graphics.Mesh.create_mesh engCreate ⟨some h⟩ t vc ic).result =
      Except.error "Mesh creation failed!" ∧
    ((Graphics.Mesh.add_data st sc m verts vc2 idx ic2).elim True
      (fun r => r.calls = [])) := by
  refine ⟨?_, ?_, rfl, rfl, ?_⟩
  · cases he : engCreate t vc ic <;>
      simp [Graphics.Mesh.create_mesh, he]
  · cases he : engCreate t vc ic <;>
      simp [Graphics.Mesh.ctor3, Graphics.Mesh.create_mesh, he]
  · cases verts with
    | none => simp [Graphics.Mesh.add_data]
    | some vs =>
      cases idx with
      | none => simp [Graphics.Mesh.add_data]
      | some is =>
        cases hm : m.ir <;> simp [Graphics.Mesh.add_data, hm]

/-- Claim C5: for every filename/flip/vram triple and every `QGTexInfo`,
the corresponding `Texture` constructor stores exactly the handle the
forwarded engine load call produced, throws exactly when that handle is
null, and completes normally exactly when it is non-null; each makes its
single engine call with the arguments unchanged. -/
theorem claim_C5_texture_ctor_throws_iff_null
    (load : String → Bool → Bool → Option QGTexture)
    (fn : String) (fl vr : Bool)
    (loadAlt : QGTexInfo → Option QGTexture) (ti : QGTexInfo) :
    ((Graphics.Texture.ctorLoad load fn fl vr).state.ir = load fn fl vr) ∧
    ((Graphics.Texture.ctorLoad load fn fl vr).result =
        Except.error "Could not load texture!" ↔ load fn fl vr = none) ∧
    ((Graphics.Texture.ctorLoad load fn fl vr).result = Except.ok () ↔
        (load fn fl vr).isSome) ∧
    ((Graphics.Texture.ctorLoad load fn fl vr).calls =
        [EngineCall.textureLoad fn fl vr]) ∧
    ((Graphics.Texture.ctorLoadAlt loadAlt ti).state.ir = loadAlt ti) ∧
    ((Graphics.Texture.ctorLoadAlt loadAlt ti).result =
        Except.error "Could not load texture!" ↔ loadAlt ti = none) ∧
    ((Graphics.Texture.ctorLoadAlt loadAlt ti).result = Except.ok () ↔
        (loadAlt ti).isSome) ∧
    ((Graphics.Texture.ctorLoadAlt loadAlt ti).calls =
        [EngineCall.textureLoadAlt ti]) := by
  refine ⟨?_, ?_, ?_, ?_, ?_, ?_, ?_, ?_⟩ <;>
    first
      | (cases hl : load fn fl vr <;> simp [Graphics.Texture.ctorLoad, hl])
      | (cases hl : loadAlt ti <;> simp [Graphics.Texture.ctorLoadAlt, hl])

/-- Claim C6: `Input::button_pressed`, `Input::button_held` and
`Input::button_released` forward the button mask to their engine function
unchanged, return exactly that engine function's value, and never
throw. -/
theorem claim_C6_input_forwarding
    (engP engH engR : Nat → Bool) (mask : Nat) :
    (Input.button_pressed engP mask).result = Except.ok (engP mask) ∧
    (Input.button_pressed engP mask).calls =
      [EngineCall.buttonPressed mask] ∧
    (Input.button_held engH mask).result = Except.ok (engH mask) ∧
    (Input.button_held engH mask).calls = [EngineCall.buttonHeld mask] ∧
    (Input.button_released engR mask).result = Except.ok (engR mask) ∧
    (Input.button_released engR mask).calls =
      [EngineCall.buttonReleased mask] :=
  ⟨rfl, rfl, rfl, rfl, rfl, rfl⟩

/-- Claim C7: each wrapper destructor makes exactly one engine call — the
matching destroy function on the address of the stored handle field, which
is therefore null afterwards — and no other engine call. -/
theorem claim_C7_dtor_single_destroy
    (m : Graphics.Mesh) (t : Graphics.Texture) (s : Graphics.Sprite) :
    (Graphics.Mesh.dtor m).calls = [EngineCall.destroyMesh] ∧
    (Graphics.Mesh.dtor m).state.ir = none ∧
    (Graphics.Texture.dtor t).calls = [EngineCall.textureDestroy] ∧
    (Graphics.Texture.dtor t).state.ir = none ∧
    (Graphics.Sprite.dtor s).calls = [EngineCall.spriteDestroy] ∧
    (Graphics.Sprite.dtor s).state.ir = none :=
  ⟨rfl, rfl, rfl, rfl, rfl, rfl⟩

/-- Claim C8: `Sprite::draw()` never throws; with a null handle it makes
no engine call and leaves the sprite untouched, and with a non-null handle
it writes exactly the public `transform` and `layer` members into the
handle's fields — the handle's color field keeps its previous value, the
public `color` member never being forwarded — and then calls
`QuickGame_Sprite_Draw` once. -/
theorem claim_C8_sprite_draw (s : Graphics.Sprite) :
    ((Graphics.Sprite.draw s).result = Except.ok ()) ∧
    ((Graphics.Sprite.draw s).calls =
      cond s.ir.isSome [EngineCall.spriteDraw] []) ∧
    ((Graphics.Sprite.draw s).state.ir =
      s.ir.map (fun h => { h with transform := s.transform,
                                  layer := s.layer })) ∧
    ((Graphics.Sprite.draw s).state.ir.map QGSpriteData.color =
      s.ir.map QGSpriteData.color) ∧
    ((Graphics.Sprite.draw s).state.transform = s.transform) ∧
    ((Graphics.Sprite.draw s).state.layer = s.layer) ∧
    ((Graphics.Sprite.draw s).state.color = s.color) := by
  cases h : s.ir <;> simp [Graphics.Sprite.draw, h]

/-- Claim C9: `Mesh::add_data` throws exactly when the vertex pointer or
the index pointer is null; when both are non-null (and the mesh handle is
valid) it returns normally, copies `vcount` elements — element size chosen
by the mesh's vertex type, textured versus colored — into the mesh's data
buffer and `icount` 16-bit indices into its index buffer, makes no engine
call, and keeps the handle non-null. -/
theorem claim_C9_add_data_copies
    (st sc : Nat) (m : Graphics.Mesh)
    (verts idx : Option (List Nat)) (vc ic : Nat) :
    (verts = none ∨ idx = none →
      Graphics.Mesh.add_data st sc m verts vc idx ic =
        some ⟨m, Except.error "Mesh data null!", []⟩) ∧
    (∀ h vs is, m.ir = some h → verts = some vs → idx = some is →
      Graphics.Mesh.add_data st sc m verts vc idx ic =
        some ⟨⟨some { h with
            data := QG.memcpy h.data vs
              (vc * (if h.type = QG_VERTEX_TYPE_TEXTURED then st else sc)),
            indices := is.take ic ++ h.indices.drop ic }⟩,
          Except.ok (), []⟩) := by
  constructor
  · rintro (rfl | rfl)
    · cases idx <;> rfl
    · cases verts <;> rfl
  · rintro h vs is hm rfl rfl
    simp [Graphics.Mesh.add_data, hm]

/-- Concrete instance of claim C9: a null vertex pointer throws, and with
all pointers valid the buffers receive the copied data (vertex type `2` is
not textured, so the colored element size `16` is selected; `1 * 16` bytes
of vertex data and one 16-bit index are copied). -/
theorem claim_C9_add_data_copies_witness :
    ((none : Option (List Nat)) = none ∨
      (some [2] : Option (List Nat)) = none) ∧
    Graphics.Mesh.add_data 24 16 ⟨some ⟨1, [7], [9]⟩⟩ none 1 (some [2]) 1 =
      some ⟨⟨some ⟨1, [7], [9]⟩⟩, Except.error "Mesh data null!", []⟩ ∧
    Graphics.Mesh.add_data 24 16 ⟨some ⟨2, [7], [9]⟩⟩ (some [3]) 1
        (some [2]) 1 =
      some ⟨⟨some ⟨2, QG.memcpy [7] [3]
          (1 * (if (2 : Nat) = QG_VERTEX_TYPE_TEXTURED then 24 else 16)),
          List.take 1 [2] ++ List.drop 1 [9]⟩⟩,
        Except.ok (), []⟩ :=
  ⟨Or.inl rfl,
   (claim_C9_add_data_copies 24 16 ⟨some ⟨1, [7], [9]⟩⟩ none
      (some [2]) 1 1).1 (Or.inl rfl),
   (claim_C9_add_data_copies 24 16 ⟨some ⟨2, [7], [9]⟩⟩ (some [3])
      (some [2]) 1 1).2 ⟨2, [7], [9]⟩ [3] [2] rfl rfl rfl⟩

/-- Claim C10: both `Sprite` constructors set the public members to
`transform = {position, 0, size}`, `layer = 0` and opaque white
`color = 0xFFFFFFFF`; these member values do not depend on the engine
create call's outcome, so they hold whether or not that call fails. -/
theorem claim_C10_sprite_ctor_member_values
    (screate : QGVector2 → QGVector2 → Option QGTexture →
      Option QGSpriteData)
    (screateC : f32 → f32 → f32 → f32 → QGTexInfo → Option QGSpriteData)
    (pos sz : QGVector2) (tex : Graphics.Texture) (ti : QGTexInfo) :
    ((Graphics.Sprite.ctorTex screate pos sz tex).state.transform =
      ⟨pos, 0, sz⟩) ∧
    ((Graphics.Sprite.ctorTex screate pos sz tex).state.layer = 0) ∧
    ((Graphics.Sprite.ctorTex screate pos sz tex).state.color =
      ⟨0xFFFFFFFF⟩) ∧
    ((Graphics.Sprite.ctorContained screateC pos sz ti).state.transform =
      ⟨pos, 0, sz⟩) ∧
    ((Graphics.Sprite.ctorContained screateC pos sz ti).state.layer = 0) ∧
    ((Graphics.Sprite.ctorContained screateC pos sz ti).state.color =
      ⟨0xFFFFFFFF⟩) := by
  refine ⟨?_, ?_, ?_, ?_, ?_, ?_⟩ <;>
    first
      | (cases h : screate pos sz tex.ir <;>
          simp [Graphics.Sprite.ctorTex, h])
      | (cases h : screateC pos.x pos.y sz.x sz.y ti <;>
          simp [Graphics.Sprite.ctorContained, h])

end Claims
